import Mathlib

/-
  Verification development for the cv-maker backend
  (cv-app-ng-backend).  The definitions below are shallow embeddings of
  the Python sources:

    app/models/cv_models.py            (DateValue, parse_date_string,
                                        format_date, _month_name_to_number)
    app/services/data_transformation_service.py
    app/services/evaluation_service.py
    app/services/ai_service.py         (extract_structured_cv_data
                                        response post-processing)
    app/services/vectorstore_service.py
    app/core/config.py

  Modelling conventions:
  * Python floats are embedded as an inductive carrying either a rational
    value or a NaN/Infinity tag (the claims under scrutiny concern only
    finiteness checks and exact decimal rounding, never binary rounding).
  * Python dynamic values that can reach the committee-score logic are
    embedded as the inductive PyVal.
  * The regular expressions of parse_date_string use the character
    classes \d, \w, \s on ASCII input; they are embedded by structural
    matchers over List Char that implement exactly the regex semantics
    for these five anchored patterns (in each pattern every bounded
    repetition is followed by a character class disjoint from it, so
    maximal-munch matching coincides with backtracking regex matching).
    Python's `$` also matches just before a single trailing newline,
    which atEnd reproduces.
  * Python dictionaries read with .get(key, default) are embedded as
    structures of Option fields read with Option.getD.
-/

namespace CvMaker

/-! ## Character classes (ASCII fragment of Python's `\d`, `\s`, `\w`) -/

def isDigitChar (c : Char) : Bool := 48 ≤ c.toNat && c.toNat ≤ 57

def isSpaceChar (c : Char) : Bool :=
  c = ' ' || c = '\t' || c = '\n' || c = '\r' || c = '\x0b' || c = '\x0c'

def isWordChar (c : Char) : Bool :=
  (65 ≤ c.toNat && c.toNat ≤ 90) || (97 ≤ c.toNat && c.toNat ≤ 122) ||
  isDigitChar c || c = '_'

/-- `$` in Python `re.match`: end of string, or just before one final newline. -/
def atEnd (cs : List Char) : Bool := cs = [] || cs = ['\n']

/-! ## Greedy character-class runs (`\d+`-style munching) -/

def splitDigits : List Char → List Char × List Char
  | [] => ([], [])
  | c :: cs =>
    if isDigitChar c then
      let r := splitDigits cs
      (c :: r.1, r.2)
    else ([], c :: cs)

def splitSpaces : List Char → List Char × List Char
  | [] => ([], [])
  | c :: cs =>
    if isSpaceChar c then
      let r := splitSpaces cs
      (c :: r.1, r.2)
    else ([], c :: cs)

/-- Head-condition used to say a run of a class stops at a list. -/
def headNot (p : Char → Bool) (l : List Char) : Prop :=
  ∀ c, l.head? = some c → p c = false

/-! ## Decimal digits (model of Python `int()` on digit strings and of
    f-string rendering of nonnegative integers) -/

def digitChar : Nat → Char
  | 0 => '0' | 1 => '1' | 2 => '2' | 3 => '3' | 4 => '4'
  | 5 => '5' | 6 => '6' | 7 => '7' | 8 => '8' | 9 => '9'
  | _ => '0'

def natDigitsRev (n : Nat) : List Char :=
  if n = 0 then []
  else digitChar (n % 10) :: natDigitsRev (n / 10)
decreasing_by exact Nat.div_lt_self (Nat.pos_of_ne_zero (by assumption)) (by norm_num)

def natDigits (n : Nat) : List Char :=
  if n = 0 then ['0'] else (natDigitsRev n).reverse

def natToStr (n : Nat) : String := ⟨natDigits n⟩

/-- Value of a most-significant-first digit string, as Python `int()`. -/
def digitsToNat (ds : List Char) : Nat :=
  ds.foldl (fun n c => 10 * n + (c.toNat - 48)) 0

/-! ## Lower-casing and the "present"/"current" check
    (Python `date_string.lower() in ['present', 'current']`) -/

def strLower (s : String) : String := ⟨s.data.map Char.toLower⟩

def isPresentString (s : String) : Bool :=
  decide (strLower s = "present") || decide (strLower s = "current")

/-! ## DateValue and the date patterns of app/models/cv_models.py -/

/-- `DateValue` of cv_models.py.  The Python fields are `int`s produced by
    `int()` on matched digit groups, hence nonnegative; they are embedded
    as `Nat`. -/
structure DateValue where
  year : Nat
  month : Option Nat := none
  day : Option Nat := none
  isPresent : Option Bool := none
deriving DecidableEq, Repr

/-- Regex `^(\d{4})$` — year only. -/
def matchYearOnly (cs : List Char) : Option (List Char) :=
  let p := splitDigits cs
  if p.1.length = 4 && atEnd p.2 then some p.1 else none

/-- Regex `^(\w{3})\s+(\d{4})$` — "Month Year". -/
def matchMonthYear (cs : List Char) : Option (String × List Char) :=
  match cs with
  | a :: b :: c :: rest =>
    if isWordChar a && isWordChar b && isWordChar c then
      let sp := splitSpaces rest
      if sp.1.isEmpty then none
      else
        let p := splitDigits sp.2
        if p.1.length = 4 && atEnd p.2 then some (⟨[a, b, c]⟩, p.1) else none
    else none
  | _ => none

/-- Regex `^(\d{1,2})\s+(\w{3})\s+(\d{4})$` — "Day Month Year". -/
def matchDayMonthYear (cs : List Char) : Option (List Char × String × List Char) :=
  let p1 := splitDigits cs
  if p1.1.length = 0 || 2 < p1.1.length then none
  else
    let sp1 := splitSpaces p1.2
    if sp1.1.isEmpty then none
    else
      match sp1.2 with
      | a :: b :: c :: r2 =>
        if isWordChar a && isWordChar b && isWordChar c then
          let sp2 := splitSpaces r2
          if sp2.1.isEmpty then none
          else
            let p3 := splitDigits sp2.2
            if p3.1.length = 4 && atEnd p3.2 then some (p1.1, ⟨[a, b, c]⟩, p3.1)
            else none
        else none
      | _ => none

/-- Regex `^(\d{1,2})/(\d{1,2})/(\d{4})$` — "MM/DD/YYYY". -/
def matchSlashDate (cs : List Char) : Option (List Char × List Char × List Char) :=
  let p1 := splitDigits cs
  if p1.1.length = 0 || 2 < p1.1.length then none
  else
    match p1.2 with
    | '/' :: r1 =>
      let p2 := splitDigits r1
      if p2.1.length = 0 || 2 < p2.1.length then none
      else
        match p2.2 with
        | '/' :: r2 =>
          let p3 := splitDigits r2
          if p3.1.length = 4 && atEnd p3.2 then some (p1.1, p2.1, p3.1) else none
        | _ => none
    | _ => none

/-- Regex `^(\d{4})-(\d{1,2})-(\d{1,2})$` — "YYYY-MM-DD". -/
def matchIsoDate (cs : List Char) : Option (List Char × List Char × List Char) :=
  let p1 := splitDigits cs
  if p1.1.length = 4 then
    match p1.2 with
    | '-' :: r1 =>
      let p2 := splitDigits r1
      if p2.1.length = 0 || 2 < p2.1.length then none
      else
        match p2.2 with
        | '-' :: r2 =>
          let p3 := splitDigits r2
          if p3.1.length = 0 || 2 < p3.1.length then none
          else if atEnd p3.2 then some (p1.1, p2.1, p3.1) else none
        | _ => none
    | _ => none
  else none

/-- `_month_name_to_number` of cv_models.py: position of the lower-cased
    3-letter name in the fixed table, 1-based; `None` when absent
    (Python's caught `ValueError`). -/
def month_name_to_number (month_name : String) : Option Nat :=
  let s := strLower month_name
  if s = "jan" then some 1 else if s = "feb" then some 2
  else if s = "mar" then some 3 else if s = "apr" then some 4
  else if s = "may" then some 5 else if s = "jun" then some 6
  else if s = "jul" then some 7 else if s = "aug" then some 8
  else if s = "sep" then some 9 else if s = "oct" then some 10
  else if s = "nov" then some 11 else if s = "dec" then some 12
  else none

/-- `parse_date_string` of cv_models.py.  `currentYear` stands for
    `datetime.now().year`.  The five patterns are tried in source order;
    none of the construction lambdas can raise in this model (Python's
    `int()` on matched digits and `DateValue(...)` cannot fail either,
    so the `except ... continue` fall-through is dead code). -/
def parse_date_string (currentYear : Nat) (s : String) : Option DateValue :=
  if s.data.isEmpty || isPresentString s then
    some { year := currentYear, isPresent := some true }
  else
    match matchYearOnly s.data with
    | some ys => some { year := digitsToNat ys }
    | none =>
      match matchMonthYear s.data with
      | some g => some { year := digitsToNat g.2, month := month_name_to_number g.1 }
      | none =>
        match matchDayMonthYear s.data with
        | some g =>
          some { year := digitsToNat g.2.2, month := month_name_to_number g.2.1,
                 day := some (digitsToNat g.1) }
        | none =>
          match matchSlashDate s.data with
          | some g =>
            some { year := digitsToNat g.2.2, month := some (digitsToNat g.1),
                   day := some (digitsToNat g.2.1) }
          | none =>
            match matchIsoDate s.data with
            | some g =>
              some { year := digitsToNat g.1, month := some (digitsToNat g.2.1),
                     day := some (digitsToNat g.2.2) }
            | none => none

/-- Whether a string matches at least one of the five accepted date
    patterns (used to state the "no match → null" claim). -/
def matchesAnyDatePattern (s : String) : Bool :=
  (matchYearOnly s.data).isSome || (matchMonthYear s.data).isSome ||
  (matchDayMonthYear s.data).isSome || (matchSlashDate s.data).isSome ||
  (matchIsoDate s.data).isSome

/-- The fixed 12-entry month-name table of `format_date`. -/
def month_names : List String :=
  ["Jan", "Feb", "Mar", "Apr", "May", "Jun",
   "Jul", "Aug", "Sep", "Oct", "Nov", "Dec"]

/-- `format_date` of cv_models.py.  Python truthiness of the optional
    `day`/`month` ints (absent or zero ⇒ falsy) is `getD 0 ≠ 0`; the
    `month_names[month-1]` lookup raises `IndexError` for month > 12,
    which this embedding renders as `none`. -/
def format_date (dv : DateValue) : Option String :=
  if dv.isPresent.getD false then some "Present"
  else
    let d := dv.day.getD 0
    let m := dv.month.getD 0
    if d != 0 && m != 0 then
      (month_names.get? (m - 1)).map
        (fun mn => natToStr d ++ " " ++ mn ++ " " ++ natToStr dv.year)
    else if m != 0 then
      (month_names.get? (m - 1)).map (fun mn => mn ++ " " ++ natToStr dv.year)
    else some (natToStr dv.year)

/-! ## CVData models (app/models/cv_models.py) -/

structure PersonalInfo where
  name : String := "Your Name"
  email : String := "your.email@example.com"
  phone : String := "+1234567890"
  location : String := "City, State"
  website : String := "your-website.com"
  linkedin : String := "linkedin.com/in/username"
  github : String := "github.com/username"
deriving DecidableEq, Repr

structure Experience where
  company : String
  role : String
  startDate : String
  endDate : String
  location : String
  description : String
  achievements : List String := []
  startDateValue : Option DateValue := none
  endDateValue : Option DateValue := none
deriving DecidableEq, Repr

structure Education where
  institution : String
  degree : String
  field : String
  startDate : String
  endDate : String
  gpa : String := ""
  startDateValue : Option DateValue := none
  endDateValue : Option DateValue := none
deriving DecidableEq, Repr

structure Project where
  name : String
  description : String
  tech_stack : List String := []
  link : String := ""
  startDate : Option String := none
  endDate : Option String := none
  startDateValue : Option DateValue := none
  endDateValue : Option DateValue := none
deriving DecidableEq, Repr

structure Skills where
  technical : List String := []
  soft : List String := []
  languages : List String := []
deriving DecidableEq, Repr

structure LicenseCertification where
  name : String
  issuer : String
  date : String
  expiry : Option String := none
  dateValue : Option DateValue := none
  expiryValue : Option DateValue := none
deriving DecidableEq, Repr

structure CVData where
  personal : PersonalInfo
  professional_summary : String := ""
  experience : List Experience := []
  education : List Education := []
  projects : List Project := []
  skills : Skills
  licenses_certifications : List LicenseCertification := []
deriving DecidableEq, Repr

/-! ## Raw AI output (the untyped mapping consumed by
    app/services/data_transformation_service.py).  Each Python
    `dict.get(key, default)` becomes `Option.getD`; an absent key is
    `none`. -/

structure RawPersonal where
  name : Option String := none
  email : Option String := none
  phone : Option String := none
  location : Option String := none
  website : Option String := none
  linkedin : Option String := none
  github : Option String := none
deriving DecidableEq, Repr

structure RawExperience where
  company : Option String := none
  role : Option String := none
  startDate : Option String := none
  endDate : Option String := none
  location : Option String := none
  description : Option String := none
  achievements : Option (List String) := none
deriving DecidableEq, Repr

structure RawEducation where
  institution : Option String := none
  degree : Option String := none
  field : Option String := none
  startDate : Option String := none
  endDate : Option String := none
  gpa : Option String := none
deriving DecidableEq, Repr

structure RawProject where
  name : Option String := none
  description : Option String := none
  tech_stack : Option (List String) := none
  link : Option String := none
  startDate : Option String := none
  endDate : Option String := none
deriving DecidableEq, Repr

structure RawSkills where
  technical : Option (List String) := none
  soft : Option (List String) := none
  languages : Option (List String) := none
deriving DecidableEq, Repr

structure RawCert where
  name : Option String := none
  issuer : Option String := none
  date : Option String := none
  expiry : Option String := none
deriving DecidableEq, Repr

structure RawAiData where
  personal : Option RawPersonal := none
  professional_summary : Option String := none
  experience : Option (List RawExperience) := none
  education : Option (List RawEducation) := none
  projects : Option (List RawProject) := none
  skills : Option RawSkills := none
  licenses_certifications : Option (List RawCert) := none
deriving DecidableEq, Repr

/-- Python truthiness of an optional string (`None` and `""` are falsy). -/
def truthyStr (s : Option String) : Bool :=
  match s with
  | none => false
  | some t => !t.data.isEmpty

/-- `DataTransformationService._parse_date`: falsy input yields `None`;
    otherwise delegates to `parse_date_string` (which cannot raise in
    this model, so the `except` branch is unreachable). -/
def transformation_parse_date (currentYear : Nat) (date_string : Option String) :
    Option DateValue :=
  if truthyStr date_string then parse_date_string currentYear (date_string.getD "")
  else none

/-- `DataTransformationService.transform_ai_data_to_cv_data`, translated
    field by field; `currentYear` threads `datetime.now().year` into the
    date parsing. -/
def transform_ai_data_to_cv_data (currentYear : Nat) (ai_data : RawAiData) : CVData :=
  let personal_data := ai_data.personal.getD {}
  let personal : PersonalInfo :=
    { name := personal_data.name.getD ""
      email := personal_data.email.getD ""
      phone := personal_data.phone.getD ""
      location := personal_data.location.getD ""
      website := personal_data.website.getD ""
      linkedin := personal_data.linkedin.getD ""
      github := personal_data.github.getD "" }
  let professional_summary := ai_data.professional_summary.getD ""
  let experience := (ai_data.experience.getD []).map fun exp_data =>
    { company := exp_data.company.getD ""
      role := exp_data.role.getD ""
      startDate := exp_data.startDate.getD ""
      endDate := exp_data.endDate.getD ""
      location := exp_data.location.getD ""
      description := exp_data.description.getD ""
      achievements := exp_data.achievements.getD []
      startDateValue :=
        transformation_parse_date currentYear (some (exp_data.startDate.getD ""))
      endDateValue :=
        transformation_parse_date currentYear (some (exp_data.endDate.getD ""))
      : Experience }
  let education := (ai_data.education.getD []).map fun edu_data =>
    { institution := edu_data.institution.getD ""
      degree := edu_data.degree.getD ""
      field := edu_data.field.getD ""
      startDate := edu_data.startDate.getD ""
      endDate := edu_data.endDate.getD ""
      gpa := edu_data.gpa.getD ""
      startDateValue :=
        transformation_parse_date currentYear (some (edu_data.startDate.getD ""))
      endDateValue :=
        transformation_parse_date currentYear (some (edu_data.endDate.getD ""))
      : Education }
  let projects := (ai_data.projects.getD []).map fun proj_data =>
    { name := proj_data.name.getD ""
      description := proj_data.description.getD ""
      tech_stack := proj_data.tech_stack.getD []
      link := proj_data.link.getD ""
      startDate := proj_data.startDate
      endDate := proj_data.endDate
      startDateValue :=
        if truthyStr proj_data.startDate then
          transformation_parse_date currentYear proj_data.startDate
        else none
      endDateValue :=
        if truthyStr proj_data.endDate then
          transformation_parse_date currentYear proj_data.endDate
        else none
      : Project }
  let skills_data := ai_data.skills.getD {}
  let skills : Skills :=
    { technical := skills_data.technical.getD []
      soft := skills_data.soft.getD []
      languages := skills_data.languages.getD [] }
  let licenses_certifications := (ai_data.licenses_certifications.getD []).map
    fun cert_data =>
      { name := cert_data.name.getD ""
        issuer := cert_data.issuer.getD ""
        date := cert_data.date.getD ""
        expiry := cert_data.expiry
        dateValue :=
          transformation_parse_date currentYear (some (cert_data.date.getD ""))
        expiryValue :=
          if truthyStr cert_data.expiry then
            transformation_parse_date currentYear cert_data.expiry
          else none
        : LicenseCertification }
  { personal := personal
    professional_summary := professional_summary
    experience := experience
    education := education
    projects := projects
    skills := skills
    licenses_certifications := licenses_certifications }

/-! ## Python numeric values reaching the evaluation service
    (app/services/evaluation_service.py) -/

/-- A Python float: either a finite rational value or a NaN/Infinity tag
    (the code only ever tests `np.isnan`/`np.isinf` and replaces the
    offending value with `0.0`, so exact binary representation is never
    observed by the properties under study). -/
inductive PyFloat where
  | nan : PyFloat
  | inf : Bool → PyFloat
  | fin : ℚ → PyFloat
deriving DecidableEq, Repr

/-- A Python value that can appear as a persona `score` or a metrics
    entry. `bool` is kept separate because `isinstance(True, int)` holds
    in Python. -/
inductive PyVal where
  | int : ℤ → PyVal
  | bool : Bool → PyVal
  | float : PyFloat → PyVal
  | str : String → PyVal
  | null : PyVal
deriving DecidableEq, Repr

/-- `isinstance(score, (int, float))` (bool is an int subclass). -/
def pyIsNumber : PyVal → Bool
  | .int _ => true
  | .bool _ => true
  | .float _ => true
  | _ => false

/-- `np.isnan(score) or np.isinf(score)` on a value already known to be
    numeric. -/
def pyIsNanOrInf : PyVal → Bool
  | .float .nan => true
  | .float (.inf _) => true
  | _ => false

/-- The numeric (rational) value of a finite Python number. -/
def pyNumValue : PyVal → ℚ
  | .int n => (n : ℚ)
  | .bool b => if b then 1 else 0
  | .float (.fin q) => q
  | _ => 0

/-- Python `round(x, 2)` in the rational model: half-to-even rounding at
    two decimal places. -/
def pyRound2 (q : ℚ) : ℚ :=
  let x := q * 100
  let f : ℤ := ⌊x⌋
  let r : ℚ := x - (f : ℚ)
  let n : ℤ :=
    if r < 1 / 2 then f
    else if 1 / 2 < r then f + 1
    else if f % 2 = 0 then f else f + 1
  (n : ℚ) / 100

/-- One persona evaluation, reduced to its `score` field:
    `none` models a returned dict with no `'score'` key. -/
abbrev PersonaEvaluation := Option PyVal

/-- The committee score-processing loop of `evaluate_cv_with_committee`:
    `score = e.get('score', 0)`, kept when it is a finite number,
    replaced by `0` otherwise. -/
def committee_sanitize (e : PersonaEvaluation) : PyVal :=
  let score := e.getD (.int 0)
  if pyIsNumber score && !pyIsNanOrInf score then score else .int 0

/-- `average_score` as computed by `evaluate_cv_with_committee`:
    `round(np.mean(scores), 2) if scores else 0.0`. -/
def committee_average_score (evals : List PersonaEvaluation) : ℚ :=
  let scores := evals.map committee_sanitize
  if scores.isEmpty then 0
  else pyRound2 ((scores.map pyNumValue).sum / (scores.length : ℚ))

/-- Result of `evaluate_cv_with_committee`'s analysis dict. -/
structure CommitteeAnalysis where
  individual_evaluations : List PersonaEvaluation
  average_score : ℚ
deriving DecidableEq, Repr

/-- `asyncio.gather` without `return_exceptions`: the whole gather raises
    as soon as any task raises. -/
def gatherExcept : List (Except Unit α) → Except Unit (List α)
  | [] => .ok []
  | x :: xs =>
    match x with
    | .error e => .error e
    | .ok a => (gatherExcept xs).map (a :: ·)

/-- `evaluate_cv_with_committee`: dispatches one persona call per entry;
    there is no `try`/`except` around the gather, so any failed persona
    call propagates out of the committee track. -/
def evaluate_cv_with_committee (personaResults : List (Except Unit PersonaEvaluation)) :
    Except Unit CommitteeAnalysis :=
  (gatherExcept personaResults).map fun committee_evaluations =>
    { individual_evaluations := committee_evaluations
      average_score := committee_average_score committee_evaluations }

/-- The fixed all-zero score dict returned by the RAGAS track on every
    degraded path. -/
def ragas_zero_scores : List (String × PyVal) :=
  [("faithfulness", .float (.fin 0)), ("answer_relevancy", .float (.fin 0)),
   ("context_precision", .float (.fin 0)), ("context_recall", .float (.fin 0))]

/-- The NaN/Infinity replacement loop of `evaluate_cv_with_ragas`:
    only float NaN/Inf entries are rewritten to `0.0`. -/
def ragas_sanitize_value (v : PyVal) : PyVal :=
  match v with
  | .float .nan => .float (.fin 0)
  | .float (.inf _) => .float (.fin 0)
  | v => v

/-- `evaluate_cv_with_ragas`.  `ragasAvailable` is the module-level
    `RAGAS_AVAILABLE` flag; `engine` is the outcome of the guarded body
    (dataset creation + `evaluate` + pandas extraction), with `.error`
    standing for any raised exception, all of which the function catches
    and converts to the zero dict. -/
def evaluate_cv_with_ragas (ragasAvailable : Bool) (retrieved_docs : List String)
    (engine : Except Unit (List (String × PyVal))) : List (String × PyVal) :=
  if !ragasAvailable then ragas_zero_scores
  else if retrieved_docs.isEmpty then ragas_zero_scores
  else
    match engine with
    | .error _ => ragas_zero_scores
    | .ok ragas_scores => ragas_scores.map fun kv => (kv.1, ragas_sanitize_value kv.2)

/-- `evaluate_cv_complete`: `asyncio.gather(ragas_task, committee_task)`.
    The RAGAS task is total (it catches everything internally), so the
    gather fails exactly when the committee task fails. -/
def evaluate_cv_complete (ragasAvailable : Bool) (retrieved_docs : List String)
    (engine : Except Unit (List (String × PyVal)))
    (personaResults : List (Except Unit PersonaEvaluation)) :
    Except Unit (List (String × PyVal) × CommitteeAnalysis) :=
  match evaluate_cv_with_committee personaResults with
  | .error e => .error e
  | .ok committee_analysis =>
    .ok (evaluate_cv_with_ragas ragasAvailable retrieved_docs engine, committee_analysis)

/-! ## Vectorstore service (app/services/vectorstore_service.py) and the
    tailoring route's index step (app/routes/cv_routes.py) -/

/-- `settings.RETRIEVAL_K` (app/core/config.py). -/
def RETRIEVAL_K : Nat := 7

/-- `clear_vectorstore`: with the mocked Pinecone (in-memory Chroma,
    which has a `_collection`) every stored id is deleted; with
    production Pinecone the cleanup is skipped ("not supported"). -/
def clear_vectorstore (mockPinecone : Bool) (store : List String) : List String :=
  if mockPinecone then [] else store

/-- `add_documents`: appends the chunks to the store. -/
def add_documents (store docs : List String) : List String := store ++ docs

/-- The index step of the `/cv/tailor` route: create chunks from the CV
    text (the splitter is an external collaborator, passed as `split`),
    clear the store, then add the new chunks. -/
def tailor_index_step (mockPinecone : Bool) (split : String → List String)
    (store : List String) (sourceText : String) : List String :=
  add_documents (clear_vectorstore mockPinecone store) (split sourceText)

/-- `k = k or settings.RETRIEVAL_K` in `retrieve_documents`
    (`None` and `0` are both falsy). -/
def effective_k (k : Option Nat) : Nat :=
  match k with
  | none => RETRIEVAL_K
  | some n => if n = 0 then RETRIEVAL_K else n

/-- `retrieve_documents`: the similarity search is an external
    collaborator that produces a relevance-ranked list; the retriever
    returns its first `effective_k k` entries. -/
def retrieve_documents (ranked : List String) (k : Option Nat) : List String :=
  ranked.take (effective_k k)

/-! ## Structured-CV generator post-processing
    (app/services/ai_service.py, extract_structured_cv_data) -/

/-- Python `str.strip()` (whitespace at both ends). -/
def pyStrip (s : String) : String :=
  ⟨((s.data.dropWhile isSpaceChar).reverse.dropWhile isSpaceChar).reverse⟩

/-- The fence-removal step: `content[7:]` when the stripped content
    starts with "```json", then `content[:-3]` when the result ends with
    "```". -/
def postprocess_ai_content (raw : String) : String :=
  let content := pyStrip raw
  let content1 :=
    if "```json".data.isPrefixOf content.data then ⟨content.data.drop 7⟩ else content
  if "```".data.reverse.isPrefixOf content1.data.reverse then
    ⟨content1.data.take (content1.data.length - 3)⟩
  else content1

/-- `extract_structured_cv_data` after the model response arrived:
    post-process, then `json.loads`; any raised exception is re-raised as
    a generic `Exception("Failed to extract CV data: ...")`.
    `jsonParse` abstracts `json.loads`. -/
def extract_structured_cv_data {α : Type} (jsonParse : String → Except Unit α)
    (response : String) : Except String α :=
  match jsonParse (postprocess_ai_content response) with
  | .ok parsed => .ok parsed
  | .error _ => .error "Failed to extract CV data"

/-- Spec-side characterisation of the committee sanitisation, written
    from the specification's words ("every returned persona score that is
    not a finite number — missing, non-numeric, NaN, or infinite — is
    replaced by 0"), to be compared with the code's
    `committee_sanitize`. -/
def isFiniteScore : PyVal → Bool
  | .int _ => true
  | .bool _ => true
  | .float (.fin _) => true
  | _ => false

/-- The spec's sanitized score of one persona evaluation. -/
def spec_sanitized_score (e : PersonaEvaluation) : ℚ :=
  match e with
  | none => 0
  | some v => if isFiniteScore v then pyNumValue v else 0

/-! ## Helper lemmas -/

theorem splitDigits_stop {l : List Char} (h : headNot isDigitChar l) :
    splitDigits l = ([], l) := by
  cases l with
  | nil => rfl
  | cons c cs =>
    have hc : isDigitChar c = false := h c rfl
    simp [splitDigits, hc]

theorem splitDigits_append {l r : List Char}
    (hl : ∀ c ∈ l, isDigitChar c = true) (hr : headNot isDigitChar r) :
    splitDigits (l ++ r) = (l, r) := by
  induction l with
  | nil => simpa using splitDigits_stop hr
  | cons c cs ih =>
    have hc : isDigitChar c = true := hl c (by simp)
    have ih' := ih (fun x hx => hl x (by simp [hx]))
    simp [splitDigits, hc, ih']

theorem splitSpaces_stop {l : List Char} (h : headNot isSpaceChar l) :
    splitSpaces l = ([], l) := by
  cases l with
  | nil => rfl
  | cons c cs =>
    have hc : isSpaceChar c = false := h c rfl
    simp [splitSpaces, hc]

theorem splitSpaces_append {l r : List Char}
    (hl : ∀ c ∈ l, isSpaceChar c = true) (hr : headNot isSpaceChar r) :
    splitSpaces (l ++ r) = (l, r) := by
  induction l with
  | nil => simpa using splitSpaces_stop hr
  | cons c cs ih =>
    have hc : isSpaceChar c = true := hl c (by simp)
    have ih' := ih (fun x hx => hl x (by simp [hx]))
    simp [splitSpaces, hc, ih']

theorem splitDigits_fst_digits :
    ∀ (l : List Char), ∀ c ∈ (splitDigits l).1, isDigitChar c = true := by
  intro l
  induction l with
  | nil => intro c hc; simp [splitDigits] at hc
  | cons a as ih =>
    intro c hc
    by_cases ha : isDigitChar a = true
    · simp only [splitDigits, ha, if_true] at hc
      rcases List.mem_cons.mp hc with hc | hc
      · simpa [hc] using ha
      · exact ih c hc
    · simp [splitDigits, ha] at hc

theorem digit_not_space {c : Char} (h : isDigitChar c = true) :
    isSpaceChar c = false := by
  simp only [isDigitChar, Bool.and_eq_true, decide_eq_true_eq] at h
  simp only [isSpaceChar, Bool.or_eq_false_iff]
  refine ⟨⟨⟨⟨⟨?_, ?_⟩, ?_⟩, ?_⟩, ?_⟩, ?_⟩ <;>
    · simp only [decide_eq_false_iff_not]
      intro hc
      subst hc
      simp_all

theorem digit_is_word {c : Char} (h : isDigitChar c = true) :
    isWordChar c = true := by
  simp [isWordChar, h]

theorem natDigitsRev_pos {n : Nat} (h : n ≠ 0) :
    natDigitsRev n = digitChar (n % 10) :: natDigitsRev (n / 10) := by
  rw [natDigitsRev]
  simp [h]

theorem digitChar_toNat {k : Nat} (h : k < 10) : (digitChar k).toNat = 48 + k := by
  interval_cases k <;> rfl

theorem digitChar_isDigit {k : Nat} (h : k < 10) : isDigitChar (digitChar k) = true := by
  interval_cases k <;> rfl

theorem natDigitsRev_digits : ∀ n : Nat, ∀ c ∈ natDigitsRev n, isDigitChar c = true := by
  intro n
  induction n using Nat.strong_induction_on with
  | _ n ih =>
    intro c hc
    by_cases h : n = 0
    · subst h; simp [natDigitsRev] at hc
    · rw [natDigitsRev_pos h] at hc
      rcases List.mem_cons.mp hc with hc | hc
      · subst hc
        exact digitChar_isDigit (Nat.mod_lt _ (by norm_num))
      · exact ih (n / 10) (Nat.div_lt_self (Nat.pos_of_ne_zero h) (by norm_num)) c hc

theorem natDigits_digits : ∀ n : Nat, ∀ c ∈ natDigits n, isDigitChar c = true := by
  intro n c hc
  by_cases h : n = 0
  · subst h; simp [natDigits] at hc; subst hc; rfl
  · simp only [natDigits, h, if_false, List.mem_reverse] at hc
    exact natDigitsRev_digits n c hc

theorem digitsToNat_step (ds : List Char) (c : Char) :
    digitsToNat (ds ++ [c]) = 10 * digitsToNat ds + (c.toNat - 48) := by
  simp [digitsToNat, List.foldl_append]

theorem digitsToNat_natDigitsRev : ∀ n : Nat, digitsToNat (natDigitsRev n).reverse = n := by
  intro n
  induction n using Nat.strong_induction_on with
  | _ n ih =>
    by_cases h : n = 0
    · subst h; simp [natDigitsRev, digitsToNat]
    · rw [natDigitsRev_pos h]
      simp only [List.reverse_cons]
      rw [digitsToNat_step,
        ih (n / 10) (Nat.div_lt_self (Nat.pos_of_ne_zero h) (by norm_num)),
        digitChar_toNat (Nat.mod_lt _ (by norm_num))]
      omega

theorem digitsToNat_natDigits (n : Nat) : digitsToNat (natDigits n) = n := by
  by_cases h : n = 0
  · subst h; rfl
  · simp only [natDigits, h, if_false]
    exact digitsToNat_natDigitsRev n

theorem natDigitsRev_length_four {n : Nat} (h1 : 1000 ≤ n) (h2 : n ≤ 9999) :
    (natDigitsRev n).length = 4 := by
  rw [natDigitsRev_pos (by omega),
      natDigitsRev_pos (n := n / 10) (by omega),
      natDigitsRev_pos (n := n / 10 / 10) (by omega),
      natDigitsRev_pos (n := n / 10 / 10 / 10) (by omega)]
  have hz : n / 10 / 10 / 10 / 10 = 0 := by omega
  rw [hz]
  simp [natDigitsRev]

theorem natDigits_length_four {n : Nat} (h1 : 1000 ≤ n) (h2 : n ≤ 9999) :
    (natDigits n).length = 4 := by
  simp only [natDigits, show n ≠ 0 by omega, if_false, List.length_reverse]
  exact natDigitsRev_length_four h1 h2

theorem natDigits_one_digit {n : Nat} (h1 : 1 ≤ n) (h2 : n ≤ 9) :
    natDigits n = [digitChar n] := by
  simp only [natDigits, show n ≠ 0 by omega, if_false]
  rw [natDigitsRev_pos (by omega)]
  have h10 : n / 10 = 0 := by omega
  have hm : n % 10 = n := by omega
  rw [h10, hm]
  simp [natDigitsRev]

theorem natDigits_two_digits {n : Nat} (h1 : 10 ≤ n) (h2 : n ≤ 99) :
    natDigits n = [digitChar (n / 10), digitChar (n % 10)] := by
  simp only [natDigits, show n ≠ 0 by omega, if_false]
  rw [natDigitsRev_pos (by omega), natDigitsRev_pos (n := n / 10) (by omega)]
  have hz : n / 10 / 10 = 0 := by omega
  have hm : n / 10 % 10 = n / 10 := by omega
  rw [hz, hm]
  simp [natDigitsRev]

theorem isPresentString_of_length_ne {s : String} (h : s.data.length ≠ 7) :
    isPresentString s = false := by
  have h1 : strLower s ≠ "present" := by
    intro heq
    have := congrArg (fun t => t.data.length) heq
    simp [strLower] at this
    exact h this
  have h2 : strLower s ≠ "current" := by
    intro heq
    have := congrArg (fun t => t.data.length) heq
    simp [strLower] at this
    exact h this
  simp [isPresentString, h1, h2]

theorem committee_sanitize_value (e : PersonaEvaluation) :
    pyNumValue (committee_sanitize e) = spec_sanitized_score e := by
  rcases e with _ | v
  · rfl
  · rcases v with n | b | f | s | _
    · rfl
    · rfl
    · rcases f with _ | b | q <;> rfl
    · rfl
    · rfl

theorem ragas_sanitize_finite (v : PyVal) :
    pyIsNanOrInf (ragas_sanitize_value v) = false := by
  rcases v with n | b | f | s | _
  · rfl
  · rfl
  · rcases f with _ | b | q <;> rfl
  · rfl
  · rfl

theorem data_append (s t : String) : (s ++ t).data = s.data ++ t.data := by
  cases s
  cases t
  rfl

theorem splitDigits_all {l : List Char} (h : ∀ c ∈ l, isDigitChar c = true) :
    splitDigits l = (l, []) := by
  have := splitDigits_append h (r := []) (by intro x hx; simp at hx)
  simpa using this

theorem headNot_space_of_digits {l : List Char}
    (h : ∀ c ∈ l, isDigitChar c = true) : headNot isSpaceChar l := by
  intro x hx
  cases l with
  | nil => simp at hx
  | cons a as =>
    simp at hx
    subst hx
    exact digit_not_space (h a (by simp))

theorem splitSpaces_space_digits {l : List Char}
    (h : ∀ c ∈ l, isDigitChar c = true) :
    splitSpaces (' ' :: l) = ([' '], l) := by
  have := splitSpaces_append (l := [' ']) (r := l)
    (by intro c hc; simp at hc; subst hc; rfl) (headNot_space_of_digits h)
  simpa using this

theorem list_isEmpty_false {l : List Char} (h : l.length ≠ 0) : l.isEmpty = false := by
  cases l with
  | nil => simp at h
  | cons a as => rfl

/-- One month table entry, with all facts needed for the round trip. -/
theorem month_entry (m : Nat) (hm1 : 1 ≤ m) (hm2 : m ≤ 12) :
    ∃ a b c : Char,
      month_names[m - 1]? = some ⟨[a, b, c]⟩
      ∧ isWordChar a = true ∧ isWordChar b = true ∧ isWordChar c = true
      ∧ isDigitChar a = false ∧ isSpaceChar a = false
      ∧ month_name_to_number ⟨[a, b, c]⟩ = some m := by
  interval_cases m
  · exact ⟨'J', 'a', 'n', rfl, rfl, rfl, rfl, rfl, rfl, rfl⟩
  · exact ⟨'F', 'e', 'b', rfl, rfl, rfl, rfl, rfl, rfl, rfl⟩
  · exact ⟨'M', 'a', 'r', rfl, rfl, rfl, rfl, rfl, rfl, rfl⟩
  · exact ⟨'A', 'p', 'r', rfl, rfl, rfl, rfl, rfl, rfl, rfl⟩
  · exact ⟨'M', 'a', 'y', rfl, rfl, rfl, rfl, rfl, rfl, rfl⟩
  · exact ⟨'J', 'u', 'n', rfl, rfl, rfl, rfl, rfl, rfl, rfl⟩
  · exact ⟨'J', 'u', 'l', rfl, rfl, rfl, rfl, rfl, rfl, rfl⟩
  · exact ⟨'A', 'u', 'g', rfl, rfl, rfl, rfl, rfl, rfl, rfl⟩
  · exact ⟨'S', 'e', 'p', rfl, rfl, rfl, rfl, rfl, rfl, rfl⟩
  · exact ⟨'O', 'c', 't', rfl, rfl, rfl, rfl, rfl, rfl, rfl⟩
  · exact ⟨'N', 'o', 'v', rfl, rfl, rfl, rfl, rfl, rfl, rfl⟩
  · exact ⟨'D', 'e', 'c', rfl, rfl, rfl, rfl, rfl, rfl, rfl⟩

/-- Re-parsing a rendered 4-digit year recovers the year-only value. -/
theorem parse_year_string (cy y : Nat) (h1 : 1000 ≤ y) (h2 : y ≤ 9999) :
    parse_date_string cy (natToStr y) = some { year := y } := by
  have hdig := natDigits_digits y
  have hlen := natDigits_length_four h1 h2
  have hne : (natToStr y).data.isEmpty = false :=
    list_isEmpty_false (by rw [show (natToStr y).data = natDigits y from rfl, hlen]; omega)
  have hpres : isPresentString (natToStr y) = false :=
    isPresentString_of_length_ne
      (by rw [show (natToStr y).data = natDigits y from rfl, hlen]; omega)
  have hsd : splitDigits (natDigits y) = (natDigits y, []) := splitDigits_all hdig
  have hnil : natDigits y ≠ [] := by
    intro hh
    rw [hh] at hlen
    simp at hlen
  unfold parse_date_string
  simp [show (natToStr y).data = natDigits y from rfl, hne, hpres, matchYearOnly, hsd,
    hlen, atEnd, digitsToNat_natDigits, hnil]

/-- Re-parsing "<3 word chars> <4-digit year>" hits the Month-Year
    pattern. -/
theorem parse_word3_year (cy y : Nat) (hy1 : 1000 ≤ y) (hy2 : y ≤ 9999)
    (a b c : Char) (hwa : isWordChar a = true) (hwb : isWordChar b = true)
    (hwc : isWordChar c = true) (hna : isDigitChar a = false)
    (m : Nat) (hmn : month_name_to_number ⟨[a, b, c]⟩ = some m) :
    parse_date_string cy ((⟨[a, b, c]⟩ : String) ++ " " ++ natToStr y)
      = some { year := y, month := some m } := by
  have hydig := natDigits_digits y
  have hylen := natDigits_length_four hy1 hy2
  have hdata : ((⟨[a, b, c]⟩ : String) ++ " " ++ natToStr y).data
      = a :: b :: c :: ' ' :: natDigits y := by
    simp [data_append, natToStr]
  have hpres : isPresentString ((⟨[a, b, c]⟩ : String) ++ " " ++ natToStr y) = false :=
    isPresentString_of_length_ne (by rw [hdata]; simp [hylen])
  have hm1 : matchYearOnly (a :: b :: c :: ' ' :: natDigits y) = none := by
    have hsd : splitDigits (a :: b :: c :: ' ' :: natDigits y)
        = ([], a :: b :: c :: ' ' :: natDigits y) :=
      splitDigits_stop (by intro x hx; simp at hx; subst hx; exact hna)
    simp [matchYearOnly, hsd]
  have hm2 : matchMonthYear (a :: b :: c :: ' ' :: natDigits y)
      = some (⟨[a, b, c]⟩, natDigits y) := by
    have hss := splitSpaces_space_digits hydig
    have hsd : splitDigits (natDigits y) = (natDigits y, []) := splitDigits_all hydig
    simp [matchMonthYear, hwa, hwb, hwc, hss, hsd, hylen, atEnd]
  unfold parse_date_string
  rw [hdata]
  simp [hpres, hm1, hm2, digitsToNat_natDigits, hmn]

/-- Re-parsing "<1-2 digit day> <3 word chars> <4-digit year>" hits the
    Day-Month-Year pattern. -/
theorem parse_day_word3_year (cy y dd : Nat) (hy1 : 1000 ≤ y) (hy2 : y ≤ 9999)
    (hd1 : 1 ≤ dd) (hd2 : dd ≤ 31)
    (a b c : Char) (hwa : isWordChar a = true) (hwb : isWordChar b = true)
    (hwc : isWordChar c = true) (hsa : isSpaceChar a = false)
    (m : Nat) (hmn : month_name_to_number ⟨[a, b, c]⟩ = some m) :
    parse_date_string cy
        (natToStr dd ++ " " ++ (⟨[a, b, c]⟩ : String) ++ " " ++ natToStr y)
      = some { year := y, month := some m, day := some dd } := by
  have hydig := natDigits_digits y
  have hylen := natDigits_length_four hy1 hy2
  have hddig := natDigits_digits dd
  have hdlen : (natDigits dd).length = 1 ∨ (natDigits dd).length = 2 := by
    by_cases h9 : dd ≤ 9
    · left
      rw [natDigits_one_digit hd1 h9]
      rfl
    · right
      rw [natDigits_two_digits (by omega) (by omega)]
      rfl
  have hdata : (natToStr dd ++ " " ++ (⟨[a, b, c]⟩ : String) ++ " " ++ natToStr y).data
      = natDigits dd ++ ' ' :: a :: b :: c :: ' ' :: natDigits y := by
    simp [data_append, natToStr]
  have hpres : isPresentString
      (natToStr dd ++ " " ++ (⟨[a, b, c]⟩ : String) ++ " " ++ natToStr y) = false := by
    apply isPresentString_of_length_ne
    rw [hdata]
    simp [hylen]
  have hne : (natDigits dd ++ ' ' :: a :: b :: c :: ' ' :: natDigits y).isEmpty = false := by
    apply list_isEmpty_false
    simp
  have hsplitD : splitDigits (natDigits dd ++ ' ' :: a :: b :: c :: ' ' :: natDigits y)
      = (natDigits dd, ' ' :: a :: b :: c :: ' ' :: natDigits y) :=
    splitDigits_append hddig (by intro x hx; simp at hx; subst hx; rfl)
  have hssM : splitSpaces (' ' :: a :: b :: c :: ' ' :: natDigits y)
      = ([' '], a :: b :: c :: ' ' :: natDigits y) := by
    have := splitSpaces_append (l := [' '])
      (r := a :: b :: c :: ' ' :: natDigits y)
      (by intro x hx; simp at hx; subst hx; rfl)
      (by intro x hx; simp at hx; subst hx; exact hsa)
    simpa using this
  have hssY := splitSpaces_space_digits hydig
  have hsdY : splitDigits (natDigits y) = (natDigits y, []) := splitDigits_all hydig
  have hm1 : matchYearOnly (natDigits dd ++ ' ' :: a :: b :: c :: ' ' :: natDigits y)
      = none := by
    rcases hdlen with h | h <;> simp [matchYearOnly, hsplitD, h]
  have hm2 : matchMonthYear (natDigits dd ++ ' ' :: a :: b :: c :: ' ' :: natDigits y)
      = none := by
    by_cases h9 : dd ≤ 9
    · rw [natDigits_one_digit hd1 h9]
      simp [matchMonthYear, show isWordChar ' ' = false from rfl]
    · rw [natDigits_two_digits (by omega) (by omega)]
      simp [matchMonthYear, show isWordChar ' ' = false from rfl]
  have hm3 : matchDayMonthYear (natDigits dd ++ ' ' :: a :: b :: c :: ' ' :: natDigits y)
      = some (natDigits dd, ⟨[a, b, c]⟩, natDigits y) := by
    rcases hdlen with h | h <;>
      simp [matchDayMonthYear, hsplitD, h, hssM, hwa, hwb, hwc, hssY, hsdY, hylen, atEnd]
  unfold parse_date_string
  rw [hdata]
  simp [hne, hpres, hm1, hm2, hm3, digitsToNat_natDigits, hmn]

/-- Formatting and re-parsing a year+month value. -/
theorem roundtrip_month_year (cy y m : Nat) (hy1 : 1000 ≤ y) (hy2 : y ≤ 9999)
    (hm1 : 1 ≤ m) (hm2 : m ≤ 12) :
    ∃ t, format_date { year := y, month := some m } = some t
      ∧ parse_date_string cy t = some { year := y, month := some m } := by
  obtain ⟨a, b, c, hget, hwa, hwb, hwc, hna, _, hmn⟩ := month_entry m hm1 hm2
  refine ⟨(⟨[a, b, c]⟩ : String) ++ " " ++ natToStr y, ?_, ?_⟩
  · have hmz : (m != 0) = true := by simp; omega
    simp [format_date, hget, hmz]
  · exact parse_word3_year cy y hy1 hy2 a b c hwa hwb hwc hna m hmn

/-- Formatting and re-parsing a full year+month+day value. -/
theorem roundtrip_day_month_year (cy y m dd : Nat) (hy1 : 1000 ≤ y) (hy2 : y ≤ 9999)
    (hm1 : 1 ≤ m) (hm2 : m ≤ 12) (hd1 : 1 ≤ dd) (hd2 : dd ≤ 31) :
    ∃ t, format_date { year := y, month := some m, day := some dd } = some t
      ∧ parse_date_string cy t
          = some { year := y, month := some m, day := some dd } := by
  obtain ⟨a, b, c, hget, hwa, hwb, hwc, _, hsa, hmn⟩ := month_entry m hm1 hm2
  refine ⟨natToStr dd ++ " " ++ (⟨[a, b, c]⟩ : String) ++ " " ++ natToStr y, ?_, ?_⟩
  · have hmz : (m != 0) = true := by simp; omega
    have hdz : (dd != 0) = true := by simp; omega
    simp [format_date, hget, hmz, hdz]
  · exact parse_day_word3_year cy y dd hy1 hy2 hd1 hd2 a b c hwa hwb hwc hsa m hmn

theorem committee_average_eq_spec (evals : List PersonaEvaluation) :
    committee_average_score evals =
      if evals.isEmpty then 0
      else pyRound2 ((evals.map spec_sanitized_score).sum / (evals.length : ℚ)) := by
  unfold committee_average_score
  have hmap : (evals.map committee_sanitize).map pyNumValue
      = evals.map spec_sanitized_score := by
    rw [List.map_map]
    exact List.map_congr_left fun e _ => committee_sanitize_value e
  simp only [hmap, List.length_map]
  cases evals <;> rfl

theorem pyRound2_eight_thirds : pyRound2 (8 / 3) = 267 / 100 := by
  have hf : ⌊(8 : ℚ) / 3 * 100⌋ = 266 := by
    rw [Int.floor_eq_iff]
    constructor <;> norm_num
  simp only [pyRound2, hf]
  norm_num

/-! ## Claim theorems -/

/-- C1: in the committee evaluation, every returned persona score that is
    not a finite number (missing, non-numeric, NaN, or infinite) is
    replaced by 0 and still counted in the denominator of the average;
    `average_score` is the arithmetic mean of the sanitized scores
    rounded to 2 decimal places, an empty evaluation set yields 0.0, and
    for scores `[8, "bad", NaN]` the average is `round(8/3, 2) = 2.67`. -/
theorem committee_average_spec_c1 :
    (∀ evals : List PersonaEvaluation,
      committee_average_score evals =
        if evals.isEmpty then 0
        else pyRound2 ((evals.map spec_sanitized_score).sum / (evals.length : ℚ)))
    ∧ committee_average_score
        [some (.int 8), some (.str "bad"), some (.float .nan)] = 267 / 100
    ∧ committee_average_score [] = 0 := by
  refine ⟨committee_average_eq_spec, ?_, rfl⟩
  rw [committee_average_eq_spec]
  have hsum : (List.map spec_sanitized_score
      [some (.int 8), some (.str "bad"), some (.float .nan)]).sum = 8 := by
    simp [spec_sanitized_score, isFiniteScore, pyNumValue]
  simp only [List.isEmpty_cons, List.length_cons, List.length_nil, hsum]
  norm_num
  exact pyRound2_eight_thirds

/-- C2 (counterexample): the two tracks of `evaluate_cv_complete` are not
    independent — with a RAGAS track that succeeds on its own, a single
    failed committee persona call makes the whole evaluation fail, so the
    retrieval-metrics result is not returned. -/
theorem evaluation_independence_counterexample_c2 :
    evaluate_cv_with_ragas true ["doc"]
        (.ok [("faithfulness", .float (.fin (1 / 2)))])
      = [("faithfulness", .float (.fin (1 / 2)))]
    ∧ evaluate_cv_complete true ["doc"]
        (.ok [("faithfulness", .float (.fin (1 / 2)))]) [.error ()]
      = .error () := by
  exact ⟨rfl, rfl⟩

/-- C2 (amended): independence holds in one direction only.  For every
    persona-result list, a failure of the retrieval-metrics engine is
    absorbed into the zero fallback and the committee outcome is passed
    through unchanged; in particular, when every persona call succeeds,
    the full committee analysis is still returned next to the zero
    vector.  But a failed committee persona call propagates out of
    `evaluate_cv_complete`, discarding the retrieval-metrics result. -/
theorem evaluation_independence_amended_c2 (ragasAvailable : Bool)
    (retrieved_docs : List String) (engine : Except Unit (List (String × PyVal)))
    (personaResults : List (Except Unit PersonaEvaluation)) :
    evaluate_cv_complete ragasAvailable retrieved_docs (.error ()) personaResults
      = (evaluate_cv_with_committee personaResults).map
          (fun c => (ragas_zero_scores, c))
    ∧ (∀ committee_evaluations,
        gatherExcept personaResults = .ok committee_evaluations →
        evaluate_cv_complete ragasAvailable retrieved_docs (.error ()) personaResults
          = .ok (ragas_zero_scores,
              { individual_evaluations := committee_evaluations
                average_score := committee_average_score committee_evaluations }))
    ∧ (∀ e, gatherExcept personaResults = .error e →
        evaluate_cv_complete ragasAvailable retrieved_docs engine personaResults
          = .error e) := by
  have hzero : evaluate_cv_with_ragas ragasAvailable retrieved_docs (.error ())
      = ragas_zero_scores := by
    cases ragasAvailable
    · rfl
    · cases retrieved_docs <;> rfl
  refine ⟨?_, ?_, ?_⟩
  · unfold evaluate_cv_complete
    rw [hzero]
    unfold evaluate_cv_with_committee
    cases hg : gatherExcept personaResults <;> rfl
  · intro committee_evaluations hg
    unfold evaluate_cv_complete
    rw [hzero]
    unfold evaluate_cv_with_committee
    rw [hg]
    rfl
  · intro e hg
    unfold evaluate_cv_complete evaluate_cv_with_committee
    rw [hg]
    rfl

/-- C2 (witness): the amended theorem applied on both sides — a failing
    RAGAS engine with an all-successful committee still yields the full
    committee analysis, while one failing persona call fails the whole
    evaluation. -/
theorem evaluation_independence_witness_c2 :
    evaluate_cv_complete true ["doc"] (.error ()) [.ok (some (.int 8))]
      = .ok (ragas_zero_scores,
          { individual_evaluations := [some (.int 8)]
            average_score := committee_average_score [some (.int 8)] })
    ∧ evaluate_cv_complete false [] (.ok []) [.error ()] = .error () :=
  ⟨(evaluation_independence_amended_c2 true ["doc"] (.ok [])
      [.ok (some (.int 8))]).2.1 [some (.int 8)] rfl,
   (evaluation_independence_amended_c2 false [] (.ok []) [.error ()]).2.2 () rfl⟩

/-- C3 (counterexample): the round trip fails on an accepted display
    format — the bare 4-digit year "0001" parses to year 1, formats to
    "1", and "1" matches no pattern, so re-parsing yields null instead of
    the original fields. -/
theorem date_round_trip_counterexample_c3 :
    parse_date_string 2025 "0001" = some { year := 1 }
    ∧ format_date { year := 1 } = some "1"
    ∧ parse_date_string 2025 "1" = none := by
  refine ⟨rfl, ?_, rfl⟩
  have h1 : natDigits 1 = ['1'] := by
    rw [natDigits_one_digit (by norm_num) (by norm_num)]
    rfl
  show some (natToStr 1) = some "1"
  rw [show natToStr 1 = (⟨natDigits 1⟩ : String) from rfl, h1]

/-- C3 (amended): the round trip holds for every parse result whose
    fields are display-representable — year in 1000-9999, month (when
    present) in 1-12, day (when present) in 1-31 and accompanied by a
    month: formatting such a DateValue succeeds and re-parsing the
    rendered string restores exactly the same year/month/day/isPresent
    fields. -/
theorem date_round_trip_amended_c3 (cy : Nat) (s : String) (d : DateValue)
    (hp : parse_date_string cy s = some d)
    (hy1 : 1000 ≤ d.year) (hy2 : d.year ≤ 9999)
    (hm : ∀ m, d.month = some m → 1 ≤ m ∧ m ≤ 12)
    (hd : ∀ dd, d.day = some dd → 1 ≤ dd ∧ dd ≤ 31)
    (hdm : d.day ≠ none → d.month ≠ none) :
    ∃ t, format_date d = some t ∧ parse_date_string cy t = some d := by
  unfold parse_date_string at hp
  by_cases hc : (s.data.isEmpty || isPresentString s) = true
  · rw [if_pos hc] at hp
    injection hp with hp
    subst hp
    exact ⟨"Present", rfl, rfl⟩
  · rw [if_neg hc] at hp
    cases h1 : matchYearOnly s.data with
    | some ys =>
      rw [h1] at hp
      injection hp with hp
      subst hp
      exact ⟨_, rfl, parse_year_string cy _ hy1 hy2⟩
    | none =>
      rw [h1] at hp
      cases h2 : matchMonthYear s.data with
      | some g =>
        rw [h2] at hp
        injection hp with hp
        subst hp
        cases hmn : month_name_to_number g.1 with
        | none => exact ⟨_, rfl, parse_year_string cy _ hy1 hy2⟩
        | some m =>
          obtain ⟨hm1, hm2⟩ := hm m hmn
          exact roundtrip_month_year cy _ m hy1 hy2 hm1 hm2
      | none =>
        rw [h2] at hp
        cases h3 : matchDayMonthYear s.data with
        | some g =>
          rw [h3] at hp
          injection hp with hp
          subst hp
          cases hmn : month_name_to_number g.2.1 with
          | none => exact absurd hmn (hdm (by simp))
          | some m =>
            obtain ⟨hm1, hm2⟩ := hm m hmn
            obtain ⟨hd1, hd2⟩ := hd (digitsToNat g.1) rfl
            exact roundtrip_day_month_year cy _ m _ hy1 hy2 hm1 hm2 hd1 hd2
        | none =>
          rw [h3] at hp
          cases h4 : matchSlashDate s.data with
          | some g =>
            rw [h4] at hp
            injection hp with hp
            subst hp
            obtain ⟨hm1, hm2⟩ := hm (digitsToNat g.1) rfl
            obtain ⟨hd1, hd2⟩ := hd (digitsToNat g.2.1) rfl
            exact roundtrip_day_month_year cy _ _ _ hy1 hy2 hm1 hm2 hd1 hd2
          | none =>
            rw [h4] at hp
            cases h5 : matchIsoDate s.data with
            | some g =>
              rw [h5] at hp
              injection hp with hp
              subst hp
              obtain ⟨hm1, hm2⟩ := hm (digitsToNat g.2.1) rfl
              obtain ⟨hd1, hd2⟩ := hd (digitsToNat g.2.2) rfl
              exact roundtrip_day_month_year cy _ _ _ hy1 hy2 hm1 hm2 hd1 hd2
            | none =>
              rw [h5] at hp
              exact absurd hp (by simp)

/-- C3 (witness): the amended round trip at the spec's own example,
    `parse("Jan 2023")`. -/
theorem date_round_trip_witness_c3 :
    ∃ t, format_date { year := 2023, month := some 1 } = some t
      ∧ parse_date_string 2025 t = some { year := 2023, month := some 1 } :=
  date_round_trip_amended_c3 2025 "Jan 2023" { year := 2023, month := some 1 } rfl
    (by norm_num) (by norm_num)
    (by intro m hmq; simp at hmq; omega)
    (by intro dd hdq; simp at hdq)
    (by intro h; exact absurd rfl h)

/-- C4: the retrieval-metrics track never raises — if the engine is
    unavailable, the retrieved-document list is empty, or the engine body
    raises, the fixed all-zero score vector is returned; and when the
    engine does run, no NaN or infinite value survives in the returned
    scores. -/
theorem ragas_track_degraded_c4 (ragasAvailable : Bool) (retrieved_docs : List String)
    (engine : Except Unit (List (String × PyVal))) :
    evaluate_cv_with_ragas false retrieved_docs engine = ragas_zero_scores
    ∧ evaluate_cv_with_ragas ragasAvailable [] engine = ragas_zero_scores
    ∧ evaluate_cv_with_ragas ragasAvailable retrieved_docs (.error ())
        = ragas_zero_scores
    ∧ (∀ kv ∈ evaluate_cv_with_ragas ragasAvailable retrieved_docs engine,
        pyIsNanOrInf kv.2 = false) := by
  have hzeros : ∀ kv ∈ ragas_zero_scores, pyIsNanOrInf kv.2 = false := by
    intro kv hkv
    simp only [ragas_zero_scores, List.mem_cons, List.not_mem_nil, or_false] at hkv
    rcases hkv with rfl | rfl | rfl | rfl <;> rfl
  refine ⟨rfl, ?_, ?_, ?_⟩
  · cases ragasAvailable <;> rfl
  · cases ragasAvailable
    · rfl
    · cases retrieved_docs <;> rfl
  · intro kv hkv
    unfold evaluate_cv_with_ragas at hkv
    split at hkv
    · exact hzeros kv hkv
    · split at hkv
      · exact hzeros kv hkv
      · split at hkv
        · exact hzeros kv hkv
        · rcases List.mem_map.mp hkv with ⟨ab, _, rfl⟩
          exact ragas_sanitize_finite ab.2

/-- C4 (witness): the degraded paths and the NaN replacement at concrete
    inputs. -/
theorem ragas_track_degraded_witness_c4 :
    evaluate_cv_with_ragas false ["doc"] (.ok []) = ragas_zero_scores
    ∧ pyIsNanOrInf (PyVal.float (.fin 0)) = false :=
  ⟨(ragas_track_degraded_c4 false ["doc"] (.ok [])).1,
   (ragas_track_degraded_c4 true ["doc"]
      (.ok [("faithfulness", .float .nan)])).2.2.2
     ("faithfulness", .float (.fin 0)) (by decide)⟩

/-- C5: transforming the empty raw mapping yields a StructuredCV whose
    list fields are all empty and whose string fields are all empty, and
    the transformation is total (absence of optional fields can never
    make it fail). -/
theorem transformation_defaults_c5 :
    ∀ currentYear : Nat,
      transform_ai_data_to_cv_data currentYear {} =
        { personal := { name := "", email := "", phone := "", location := "",
                        website := "", linkedin := "", github := "" }
          professional_summary := ""
          experience := []
          education := []
          projects := []
          skills := { technical := [], soft := [], languages := [] }
          licenses_certifications := [] } :=
  fun _ => rfl

/-- C6 (counterexample): the empty string matches none of the accepted
    date patterns and is not a "present"/"current" form, yet
    `parse_date_string` returns a Present-DateValue for it instead of
    null (the `if not date_string` guard treats falsy strings like
    "present"). -/
theorem unparseable_null_counterexample_c6 :
    matchesAnyDatePattern "" = false
    ∧ isPresentString "" = false
    ∧ parse_date_string 2025 "" = some { year := 2025, isPresent := some true } :=
  ⟨rfl, rfl, rfl⟩

/-- C6 (amended): every non-empty input string that is not a
    "present"/"current" form and matches none of the accepted patterns
    parses to null rather than raising; and transforming a CV whose
    experience `startDate` holds such a string (e.g. "not a date") still
    succeeds, keeping the raw string while `startDateValue` is null. -/
theorem unparseable_null_amended_c6 (currentYear : Nat) (s : String)
    (h1 : s ≠ "") (h2 : isPresentString s = false)
    (h3 : matchesAnyDatePattern s = false) :
    parse_date_string currentYear s = none
    ∧ (transform_ai_data_to_cv_data currentYear
        { experience := some [{ company := some "Acme Corp",
                                startDate := some "not a date",
                                endDate := some "2023" }] }).experience.map
        (fun e => (e.startDate, e.startDateValue))
      = [("not a date", none)] := by
  constructor
  · have hd : s.data.isEmpty = false := by
      cases hs : s.data with
      | nil => exact absurd (String.ext hs) h1
      | cons a as => rfl
    simp only [matchesAnyDatePattern, Bool.or_eq_false_iff] at h3
    obtain ⟨⟨⟨⟨m1, m2⟩, m3⟩, m4⟩, m5⟩ := h3
    have e1 : matchYearOnly s.data = none := by
      cases hx : matchYearOnly s.data
      · rfl
      · rw [hx] at m1; simp at m1
    have e2 : matchMonthYear s.data = none := by
      cases hx : matchMonthYear s.data
      · rfl
      · rw [hx] at m2; simp at m2
    have e3 : matchDayMonthYear s.data = none := by
      cases hx : matchDayMonthYear s.data
      · rfl
      · rw [hx] at m3; simp at m3
    have e4 : matchSlashDate s.data = none := by
      cases hx : matchSlashDate s.data
      · rfl
      · rw [hx] at m4; simp at m4
    have e5 : matchIsoDate s.data = none := by
      cases hx : matchIsoDate s.data
      · rfl
      · rw [hx] at m5; simp at m5
    simp [parse_date_string, hd, h2, e1, e2, e3, e4, e5]
  · rfl

/-- C6 (witness): the amended theorem applied to a concrete
    non-matching string. -/
theorem unparseable_null_witness_c6 :
    parse_date_string 1999 "xyzzy" = none
    ∧ (transform_ai_data_to_cv_data 1999
        { experience := some [{ company := some "Acme Corp",
                                startDate := some "not a date",
                                endDate := some "2023" }] }).experience.map
        (fun e => (e.startDate, e.startDateValue))
      = [("not a date", none)] :=
  unparseable_null_amended_c6 1999 "xyzzy" (by decide) (by decide) (by decide)

/-- C7: the data-model range invariant fails on the code — the numeric
    MM/DD/YYYY pattern copies its digit groups verbatim, so
    `"13/45/2023"` parses to month 13 and day 45, out of the 1-12 / 1-31
    ranges documented on the DateValue fields, with no fall-through. -/
theorem datevalue_range_bug_c7 :
    parse_date_string 2025 "13/45/2023" =
      some { year := 2023, month := some 13, day := some 45 }
    ∧ (12 : Nat) < 13 ∧ (31 : Nat) < 45 :=
  ⟨rfl, by omega, by omega⟩

/-- C8 (counterexample): with production Pinecone
    (`MOCK_PINECONE = false`) the clear step is skipped, so a chunk from
    an earlier request survives the index step of a new tailoring
    request. -/
theorem index_replacement_counterexample_c8 :
    tailor_index_step false (fun t => [t]) ["stale chunk"] "new cv text"
      = ["stale chunk", "new cv text"]
    ∧ "stale chunk" ∉ (fun (t : String) => [t]) "new cv text" :=
  ⟨rfl, by decide⟩

/-- C8 (amended): with the mocked Pinecone store (in-memory Chroma, the
    only mode whose cleanup is supported), the index step first deletes
    every stored chunk, so afterwards the store holds exactly the chunks
    split from the current request's source text. -/
theorem index_replacement_amended_c8 :
    ∀ (split : String → List String) (store : List String) (sourceText : String),
      tailor_index_step true split store sourceText = split sourceText :=
  fun _ _ _ => rfl

/-- C9 (counterexample): the generator's post-processing does not strip a
    leading bare Markdown fence — only the exact prefix "```json" is
    removed — so this fenced response keeps its leading fence (and its
    remainder therefore cannot parse as JSON). -/
theorem generator_fence_counterexample_c9 :
    postprocess_ai_content "```\n\x7b\x7d\n```" = "```\n\x7b\x7d\n"
    ∧ "```".data.isPrefixOf (postprocess_ai_content "```\n\x7b\x7d\n```").data
        = true := by
  exact ⟨rfl, by decide⟩

/-- C9 (amended): post-processing strips the leading fence only when it
    is exactly "```json" and strips a trailing "```"; every response
    whose processed remainder fails to parse raises a generic
    "Failed to extract CV data" error (not a distinct exception class)
    and no default structure is ever substituted. -/
theorem generator_fence_amended_c9 {α : Type} (jsonParse : String → Except Unit α)
    (response : String)
    (h : jsonParse (postprocess_ai_content response) = .error ()) :
    extract_structured_cv_data jsonParse response = .error "Failed to extract CV data"
    ∧ (∀ v, extract_structured_cv_data jsonParse response ≠ .ok v)
    ∧ postprocess_ai_content "```json\n\x7b\x7d\n```" = "\n\x7b\x7d\n" := by
  refine ⟨?_, ?_, rfl⟩
  · unfold extract_structured_cv_data
    rw [h]
  · intro v
    unfold extract_structured_cv_data
    rw [h]
    exact fun hc => Except.noConfusion hc

/-- C9 (witness): the amended theorem applied to a parser that rejects
    the processed content. -/
theorem generator_fence_witness_c9 :
    extract_structured_cv_data (fun _ => (Except.error () : Except Unit Unit))
      "not json" = .error "Failed to extract CV data" :=
  (generator_fence_amended_c9 (fun _ => Except.error ()) "not json" rfl).1

/-- C10: `retrieve_documents` with `k = 0` does not return zero
    documents — a falsy `k` (0 or absent) is replaced by the configured
    default `RETRIEVAL_K = 7`, so up to 7 ranked documents are
    returned. -/
theorem retrieval_k_default_c10 :
    (∀ ranked : List String, retrieve_documents ranked (some 0)
        = ranked.take RETRIEVAL_K)
    ∧ (∀ ranked : List String, retrieve_documents ranked none
        = ranked.take RETRIEVAL_K)
    ∧ (∀ (ranked : List String) (n : Nat), n ≠ 0 →
        retrieve_documents ranked (some n) = ranked.take n)
    ∧ (∀ ranked : List String, RETRIEVAL_K ≤ ranked.length →
        (retrieve_documents ranked (some 0)).length = RETRIEVAL_K)
    ∧ RETRIEVAL_K = 7 := by
  refine ⟨fun _ => rfl, fun _ => rfl, ?_, ?_, rfl⟩
  · intro ranked n hn
    simp [retrieve_documents, effective_k, hn]
  · intro ranked h
    simp only [RETRIEVAL_K] at h
    simp [retrieve_documents, effective_k, RETRIEVAL_K, List.length_take]
    omega

/-- C10 (witness): with eight ranked documents and `k = 0`, exactly
    seven are returned. -/
theorem retrieval_k_default_witness_c10 :
    (retrieve_documents ["a", "b", "c", "d", "e", "f", "g", "h"] (some 0)).length
      = RETRIEVAL_K :=
  retrieval_k_default_c10.2.2.2.1 ["a", "b", "c", "d", "e", "f", "g", "h"]
    (by decide)

end CvMaker
